import Mathlib

/-!
# Verification of the OpenSfM EXIF metadata extraction core (opensfm/exif.py)

Shallow embedding of the metadata-extraction, calibration-resolution and
camera-factory code of `opensfm/exif.py`.  Python floats are modelled as
exact rationals (`ℚ`), Python `None` as `Option`, raised exceptions as
`Except.error` carrying the exception text, and Python dictionaries as
association lists.  Strings are modelled as Lean `String` with ASCII
semantics for `lower`/`strip`.
-/

/-! ## Python string primitives -/

/-- Python whitespace characters recognised by `str.strip()` (ASCII range):
space and the control characters 9–13. -/
def pyIsSpace (c : Char) : Bool :=
  c.toNat = 32 ∨ (9 ≤ c.toNat ∧ c.toNat ≤ 13)

/-- Python `str.strip()` on a character list: drop whitespace at both ends. -/
def pyStrip (l : List Char) : List Char :=
  ((l.dropWhile pyIsSpace).reverse.dropWhile pyIsSpace).reverse

/-- Python `str.lower()` restricted to ASCII: map chars through `Char.toLower`. -/
def pyLower (l : List Char) : List Char :=
  l.map Char.toLower

/-- Worker for `pyReplace` when the pattern is non-empty.  The fuel is an upper
bound on the number of characters still to be scanned; each step consumes at
least one character of the remaining string, so fuel `s.length` suffices. -/
def pyReplaceGo (pat repl : List Char) : Nat → List Char → List Char
  | 0, s => s
  | _ + 1, [] => []
  | f + 1, c :: cs =>
    if pat ≠ [] ∧ pat.isPrefixOf (c :: cs) then
      repl ++ pyReplaceGo pat repl f ((c :: cs).drop pat.length)
    else
      c :: pyReplaceGo pat repl f cs

/-- Python `s.replace(pat, repl)`: leftmost non-overlapping replacement.  For
the empty pattern Python inserts `repl` between every character and at both
ends. -/
def pyReplace (s pat repl : List Char) : List Char :=
  if pat = [] then
    s.foldr (fun c acc => repl ++ c :: acc) repl
  else
    pyReplaceGo pat repl s.length s

/-- Python `" ".join(parts)` on character lists. -/
def joinSp : List (List Char) → List Char
  | [] => []
  | [x] => x
  | x :: xs => x ++ ' ' :: joinSp xs

/-- Contiguous-substring test on character lists (Python `in` on strings). -/
def isInfixOfL : List Char → List Char → Bool
  | n, [] => n.isEmpty
  | n, c :: t => n.isPrefixOf (c :: t) || isInfixOfL n t

/-- Python substring test `needle in hay` on strings. -/
def pyInStr (needle hay : String) : Bool :=
  isInfixOfL needle.data hay.data

/-- Python `str.strip()` at the `String` level. -/
def pyStripS (s : String) : String :=
  ⟨pyStrip s.data⟩

/-- Python `str.lower()` at the `String` level. -/
def pyLowerS (s : String) : String :=
  ⟨pyLower s.data⟩

/-! ## Decimal rendering of integers (Python `str(int(·))`)

Python's `str` of a non-negative integer is its decimal form with no leading
zeros, and `"0"` for zero.  We use a structurally recursive definition (fuel
bounded by the number itself) so that concrete instances evaluate in the
kernel, and prove it injective via a round-trip evaluation function. -/

/-- The decimal digit character for `d % 10`-style arguments. -/
def digitChar (d : Nat) : Char :=
  if d = 0 then '0' else if d = 1 then '1' else if d = 2 then '2'
  else if d = 3 then '3' else if d = 4 then '4' else if d = 5 then '5'
  else if d = 6 then '6' else if d = 7 then '7' else if d = 8 then '8'
  else '9'

/-- Digits of `n`, least significant first; empty for `n = 0`. -/
def toDigitsR : Nat → Nat → List Char
  | 0, _ => []
  | _ + 1, 0 => []
  | f + 1, n => digitChar (n % 10) :: toDigitsR f (n / 10)

/-- Python `str(int(n))` for a natural number, as a character list. -/
def natRepr (n : Nat) : List Char :=
  if n = 0 then ['0'] else (toDigitsR n n).reverse

/-- Value of a least-significant-first digit list, inverse of `toDigitsR`. -/
def digitsVal : List Char → Nat
  | [] => 0
  | c :: cs => (c.toNat - 48) + 10 * digitsVal cs

theorem digitChar_toNat (d : Nat) (hd : d < 10) : (digitChar d).toNat - 48 = d := by
  interval_cases d <;> decide

theorem digitChar_toLower (d : Nat) : (digitChar d).toLower = digitChar d := by
  unfold digitChar
  split_ifs <;> decide

theorem digitsVal_toDigitsR (f : Nat) : ∀ n, n ≤ f → digitsVal (toDigitsR f n) = n := by
  induction f with
  | zero => intro n hn; interval_cases n; simp [toDigitsR, digitsVal]
  | succ f ih =>
    intro n hn
    match n with
    | 0 => simp [toDigitsR, digitsVal]
    | m + 1 =>
      have hdiv : (m + 1) / 10 ≤ f := by omega
      simp only [toDigitsR, digitsVal, ih _ hdiv]
      rw [digitChar_toNat _ (Nat.mod_lt _ (by omega))]
      omega

theorem natRepr_injective : Function.Injective natRepr := by
  intro m n h
  unfold natRepr at h
  by_cases hm : m = 0 <;> by_cases hn : n = 0 <;> simp [hm, hn] at h ⊢
  · -- m = 0, n ≠ 0 : reversed digit list of n equals ['0'], so n = 0
    exfalso
    have h' : toDigitsR n n = ['0'] := by
      have := congrArg List.reverse h
      simpa using this.symm
    have := digitsVal_toDigitsR n n le_rfl
    rw [h'] at this
    simp [digitsVal] at this
    omega
  · exfalso
    have h' : toDigitsR m m = ['0'] := by
      have := congrArg List.reverse h
      simpa using this
    have := digitsVal_toDigitsR m m le_rfl
    rw [h'] at this
    simp [digitsVal] at this
    omega
  · have h' : toDigitsR m m = toDigitsR n n := by
      have := congrArg List.reverse h
      simpa using this
    have hm' := digitsVal_toDigitsR m m le_rfl
    have hn' := digitsVal_toDigitsR n n le_rfl
    rw [h'] at hm'
    omega

theorem toLower_toDigitsR (f n : Nat) :
    (toDigitsR f n).map Char.toLower = toDigitsR f n := by
  induction f generalizing n with
  | zero => simp [toDigitsR]
  | succ f ih =>
    match n with
    | 0 => simp [toDigitsR]
    | m + 1 => simp [toDigitsR, digitChar_toLower, ih]

theorem pyLower_natRepr (n : Nat) : pyLower (natRepr n) = natRepr n := by
  unfold natRepr pyLower
  split_ifs with h
  · decide
  · rw [List.map_reverse, toLower_toDigitsR]

/-! ## Rationals and `eval_frac` (exif.py lines 25–31)

`exifread.utils.Ratio` carries integer numerator and denominator.  `eval_frac`
computes `float(num) / float(den)` and catches `ZeroDivisionError`, which is
raised exactly when the denominator is zero. -/

structure Ratio where
  num : Int
  den : Int
deriving DecidableEq, Repr

/-- `eval_frac` from exif.py: `num / den`, `None` on zero denominator. -/
def eval_frac (value : Ratio) : Option ℚ :=
  if value.den = 0 then none else some ((value.num : ℚ) / (value.den : ℚ))

/-- C8: for every rational with zero denominator `eval_frac` is unavailable
and never raises; with non-zero denominator it is the exact quotient. -/
theorem eval_frac_spec (value : Ratio) :
    (value.den = 0 → eval_frac value = none) ∧
    (value.den ≠ 0 → eval_frac value = some ((value.num : ℚ) / (value.den : ℚ))) := by
  constructor <;> intro h <;> simp [eval_frac, h]

/-- Witness for C8 at the concrete rationals 3/0 and 3/2. -/
theorem eval_frac_spec_witness :
    eval_frac ⟨3, 0⟩ = none ∧ eval_frac ⟨3, 2⟩ = some ((3 : ℚ) / 2) :=
  ⟨(eval_frac_spec ⟨3, 0⟩).1 (by decide), (eval_frac_spec ⟨3, 2⟩).2 (by decide)⟩

/-! ## `gps_to_decimal` (exif.py lines 34–43)

The source receives a list of three rationals and indexes positions 0, 1, 2;
we model it on an explicit triple.  The sign test is Python's substring test
`reference in "NE"`. -/

/-- `gps_to_decimal` from exif.py on the three indexed components. -/
def gps_to_decimal (v0 v1 v2 : Ratio) (reference : String) : Option ℚ :=
  let sign : ℚ := if pyInStr reference "NE" then 1 else -1
  match eval_frac v0, eval_frac v1, eval_frac v2 with
  | some degrees, some minutes, some seconds =>
      some (sign * (degrees + minutes / 60 + seconds / 3600))
  | _, _, _ => none

/-- The substrings of `"NE"` are exactly `""`, `"N"`, `"E"`, `"NE"`. -/
theorem isInfixOfL_NE (l : List Char) :
    isInfixOfL l ['N', 'E'] = true ↔
      l = [] ∨ l = ['N'] ∨ l = ['E'] ∨ l = ['N', 'E'] := by
  match l with
  | [] => simp [isInfixOfL, List.isPrefixOf]
  | [c] => simp [isInfixOfL, List.isPrefixOf, beq_iff_eq]
  | [c, d] =>
    simp [isInfixOfL, List.isPrefixOf, beq_iff_eq, List.isEmpty]
  | c :: d :: e :: t =>
    simp [isInfixOfL, List.isPrefixOf, List.isEmpty]

/-- String-level version of `isInfixOfL_NE` for the sign test of
`gps_to_decimal`. -/
theorem pyInStr_NE (r : String) :
    pyInStr r "NE" = true ↔ r ∈ (["", "N", "E", "NE"] : List String) := by
  obtain ⟨l⟩ := r
  have hdata : ("NE" : String).data = ['N', 'E'] := rfl
  simp only [pyInStr, hdata, isInfixOfL_NE, List.mem_cons, List.mem_singleton]
  constructor
  · rintro (h | h | h | h) <;> simp_all [String.ext_iff]
  · rintro (h | h | h | h | h) <;> simp_all [String.ext_iff]


/-- Evaluation of `gps_to_decimal` once all three rationals resolve. -/
theorem gps_to_decimal_eval (v0 v1 v2 : Ratio) (reference : String) (d m s : ℚ)
    (h0 : eval_frac v0 = some d) (h1 : eval_frac v1 = some m)
    (h2 : eval_frac v2 = some s) :
    gps_to_decimal v0 v1 v2 reference =
      some ((if pyInStr reference "NE" then (1 : ℚ) else -1) *
        (d + m / 60 + s / 3600)) := by
  unfold gps_to_decimal
  rw [h0, h1, h2]

/-- C4 counterexample: the claim says any reference other than "S"/"W" gives a
positive value, but reference "Q" is not a substring of "NE" and the code
negates: `gps_to_decimal([1/1, 0/1, 0/1], "Q") = -1 < 0`. -/
theorem gps_to_decimal_counterexample :
    gps_to_decimal ⟨1, 1⟩ ⟨0, 1⟩ ⟨0, 1⟩ "Q" = some (-1) ∧ ((-1 : ℚ) < 0) := by
  constructor
  · have h := gps_to_decimal_eval ⟨1, 1⟩ ⟨0, 1⟩ ⟨0, 1⟩ "Q" 1 0 0
      (by norm_num [eval_frac]) (by norm_num [eval_frac]) (by norm_num [eval_frac])
    rw [h]
    have hq : pyInStr "Q" "NE" = false := by decide
    rw [hq]
    norm_num
  · norm_num

/-- C4 amended: on three evaluable rationals with positive magnitude, the
result is present, and it is negative exactly when the reference is not a
substring of `"NE"` (i.e. not one of "", "N", "E", "NE"); it is the signed
magnitude `degrees + minutes/60 + seconds/3600`. -/
theorem gps_to_decimal_sign (v0 v1 v2 : Ratio) (reference : String) (d m s : ℚ)
    (h0 : eval_frac v0 = some d) (h1 : eval_frac v1 = some m)
    (h2 : eval_frac v2 = some s) (hpos : 0 < d + m / 60 + s / 3600) :
    ∃ r, gps_to_decimal v0 v1 v2 reference = some r ∧
      (0 < r ↔ reference ∈ (["", "N", "E", "NE"] : List String)) ∧
      (r < 0 ↔ reference ∉ (["", "N", "E", "NE"] : List String)) ∧
      (r = d + m / 60 + s / 3600 ∨ r = -(d + m / 60 + s / 3600)) := by
  have heval := gps_to_decimal_eval v0 v1 v2 reference d m s h0 h1 h2
  by_cases hin : pyInStr reference "NE" = true
  · have hmem := (pyInStr_NE reference).mp hin
    refine ⟨d + m / 60 + s / 3600, ?_, ?_, ?_, Or.inl rfl⟩
    · rw [heval, hin, if_pos rfl, one_mul]
    · exact ⟨fun _ => hmem, fun _ => hpos⟩
    · exact ⟨fun hneg => absurd hneg (by linarith), fun hmem' => absurd hmem hmem'⟩
  · have hnot : reference ∉ (["", "N", "E", "NE"] : List String) := fun hmem =>
      hin ((pyInStr_NE reference).mpr hmem)
    refine ⟨-(d + m / 60 + s / 3600), ?_, ?_, ?_, Or.inr rfl⟩
    · rw [heval, if_neg hin]
      norm_num
    · exact ⟨fun hposneg => absurd hposneg (by linarith), fun hmem => absurd hmem hnot⟩
    · exact ⟨fun _ => hnot, fun _ => by linarith⟩

/-- Witness for C4 at values 10°30'0" with reference "S": result is present
and negative. -/
theorem gps_to_decimal_sign_witness :
    ∃ r, gps_to_decimal ⟨10, 1⟩ ⟨30, 1⟩ ⟨0, 1⟩ "S" = some r ∧
      (0 < r ↔ ("S" : String) ∈ (["", "N", "E", "NE"] : List String)) ∧
      (r < 0 ↔ ("S" : String) ∉ (["", "N", "E", "NE"] : List String)) ∧
      (r = (10 : ℚ) + 30 / 60 + 0 / 3600 ∨ r = -((10 : ℚ) + 30 / 60 + 0 / 3600)) :=
  gps_to_decimal_sign ⟨10, 1⟩ ⟨30, 1⟩ ⟨0, 1⟩ "S" 10 30 0 (by norm_num [eval_frac])
    (by norm_num [eval_frac]) (by norm_num [eval_frac]) (by norm_num)

/-! ## `compute_focal` (exif.py lines 63–82)

The truthiness tests of the source (`if not sensor_width`, `if sensor_width
and focal`) treat both `None` and `0.0` as false.  The process-wide sensor
database `sensor_data()` is modelled as a lookup function parameter. -/

/-- Python truthiness of an optional float: false for `None` and `0.0`. -/
def pyTruthy (v : Option ℚ) : Bool :=
  match v with
  | none => false
  | some x => decide (x ≠ 0)

/-- The sensor width actually used by `compute_focal`: the given one if
truthy, else the database entry for the (truthy) sensor string. -/
def effective_sensor_width (sensor_width : Option ℚ) (sensor_string : Option String)
    (sensor_data : String → Option ℚ) : Option ℚ :=
  if pyTruthy sensor_width then sensor_width
  else
    match sensor_string with
    | some s => if s ≠ "" then sensor_data s else none
    | none => none

/-- The `focal_35`-unavailable branch of `compute_focal`. -/
def computeFocalFallback (focal sensor_width : Option ℚ) (sensor_string : Option String)
    (sensor_data : String → Option ℚ) : ℚ × ℚ :=
  match effective_sensor_width sensor_width sensor_string sensor_data, focal with
  | some w, some f => if w ≠ 0 ∧ f ≠ 0 then (36 * (f / w), f / w) else (0, 0)
  | some _, none => (0, 0)
  | none, _ => (0, 0)

/-- `compute_focal` from exif.py, returning `(focal_35, focal_ratio)`. -/
def compute_focal (focal_35 focal sensor_width : Option ℚ) (sensor_string : Option String)
    (sensor_data : String → Option ℚ) : ℚ × ℚ :=
  match focal_35 with
  | some f35 =>
    if 0 < f35 then (f35, f35 / 36)
    else computeFocalFallback focal sensor_width sensor_string sensor_data
  | none => computeFocalFallback focal sensor_width sensor_string sensor_data

/-- C6: `compute_focal` case analysis.  A positive 35mm-equivalent focal gives
`focal_ratio = focal_35 / 36` exactly; otherwise an available (truthy) sensor
width — given directly or looked up — together with an available focal gives
`focal_ratio = focal / sensor_width` and `focal_35 = 36 * focal_ratio`;
otherwise both outputs are zero. -/
theorem compute_focal_spec (focal_35 focal sensor_width : Option ℚ)
    (sensor_string : Option String) (sensor_data : String → Option ℚ) :
    (∀ f35, focal_35 = some f35 → 0 < f35 →
      compute_focal focal_35 focal sensor_width sensor_string sensor_data =
        (f35, f35 / 36)) ∧
    (focal_35 = none ∨ (∃ f35, focal_35 = some f35 ∧ f35 ≤ 0) →
      (∀ w f, effective_sensor_width sensor_width sensor_string sensor_data = some w →
        w ≠ 0 → focal = some f → f ≠ 0 →
        compute_focal focal_35 focal sensor_width sensor_string sensor_data =
          (36 * (f / w), f / w)) ∧
      ((pyTruthy (effective_sensor_width sensor_width sensor_string sensor_data) &&
          pyTruthy focal) = false →
        compute_focal focal_35 focal sensor_width sensor_string sensor_data = (0, 0))) := by
  constructor
  · rintro f35 rfl hpos
    simp [compute_focal, hpos]
  · intro h35
    have hfb : compute_focal focal_35 focal sensor_width sensor_string sensor_data =
        computeFocalFallback focal sensor_width sensor_string sensor_data := by
      rcases h35 with rfl | ⟨f35, rfl, hle⟩
      · rfl
      · simp [compute_focal, not_lt.mpr hle]
    rw [hfb]
    constructor
    · intro w f heff hw hfoc hf
      simp [computeFocalFallback, heff, hfoc, hw, hf]
    · intro hfalse
      unfold computeFocalFallback
      cases heff : effective_sensor_width sensor_width sensor_string sensor_data with
      | none => rfl
      | some w =>
        cases hfoc : focal with
        | none => rfl
        | some f =>
          rw [heff, hfoc] at hfalse
          simp [pyTruthy] at hfalse
          by_cases hw : w = 0
          · simp [hw]
          · have hf := hfalse hw
            simp [hf]

/-- Witness for C6 at the spec's scenario B inputs: no 35mm focal, raw focal
4mm, sensor width 5.5mm. -/
theorem compute_focal_spec_witness :
    compute_focal none (some 4) (some (11 / 2)) none (fun _ => none) =
      (36 * ((4 : ℚ) / (11 / 2)), (4 : ℚ) / (11 / 2)) :=
  ((compute_focal_spec none (some 4) (some (11 / 2)) none (fun _ => none)).2
    (Or.inl rfl)).1 (11 / 2) 4
    (by norm_num [effective_sensor_width, pyTruthy]) (by norm_num) rfl (by norm_num)

/-! ## `extract_orientation` (exif.py lines 305–311)

The tag value is used only when it is an `int` and non-zero; the source never
clamps it to the EXIF range 1–8. -/

/-- The first value of the "Image Orientation" tag: an integer or another
(non-int) Python value. -/
inductive OrientVal where
  | int (n : Int)
  | nonint
deriving DecidableEq, Repr

/-- `EXIF.extract_orientation` from exif.py, on the optional tag value. -/
def extract_orientation (tag : Option OrientVal) : Int :=
  match tag with
  | some (.int n) => if n ≠ 0 then n else 1
  | some .nonint => 1
  | none => 1

/-- C9 counterexample: an Image Orientation tag value of 9 is returned as-is,
outside the claimed range 1–8. -/
theorem extract_orientation_counterexample :
    extract_orientation (some (.int 9)) = 9 ∧
      ¬(1 ≤ extract_orientation (some (.int 9)) ∧ extract_orientation (some (.int 9)) ≤ 8) := by
  constructor
  · rfl
  · intro h
    have h2 : extract_orientation (some (.int 9)) = 9 := rfl
    rw [h2] at h
    omega

/-- C9 amended: the orientation is the tag value whenever that value is a
non-zero int (whatever it is), and 1 otherwise; it lies in 1–8 exactly when
every non-zero int tag value does (in particular when the tag is absent,
non-int, or zero). -/
theorem extract_orientation_spec (tag : Option OrientVal) :
    ((∀ n, tag = some (.int n) → n ≠ 0 → 1 ≤ n ∧ n ≤ 8) →
      1 ≤ extract_orientation tag ∧ extract_orientation tag ≤ 8) ∧
    (∀ n, tag = some (.int n) → n ≠ 0 → extract_orientation tag = n) ∧
    (tag = none ∨ tag = some .nonint ∨ tag = some (.int 0) →
      extract_orientation tag = 1) := by
  refine ⟨?_, ?_, ?_⟩
  · intro hrange
    match tag with
    | none => simp [extract_orientation]
    | some .nonint => simp [extract_orientation]
    | some (.int n) =>
      by_cases hn : n = 0
      · simp [extract_orientation, hn]
      · have := hrange n rfl hn
        simp [extract_orientation, hn]
        omega
  · rintro n rfl hn
    simp [extract_orientation, hn]
  · rintro (rfl | rfl | rfl) <;> simp [extract_orientation]

/-- Witness for C9 at a tag value of 6 (valid EXIF orientation). -/
theorem extract_orientation_spec_witness :
    1 ≤ extract_orientation (some (.int 6)) ∧ extract_orientation (some (.int 6)) ≤ 8 :=
  (extract_orientation_spec (some (.int 6))).1 (by
    rintro n h hne
    simp at h
    omega)

/-! ## `camera_id_` (exif.py lines 103–119)

The source joins `"v2"`, the stripped make, the stripped model (with the make
substring removed unless the make is "unknown"), `str(int(width))`,
`str(int(height))`, the projection type and `str(float(focal))[:6]` with
single spaces and lowercases the result.  The textual rendering of the Python
float is abstracted: the parameter `focalRepr` stands for `str(float(focal))`
and the function takes its first six characters, exactly as the source slices
the rendered float. -/

/-- `camera_id_` from exif.py (with the focal ratio already rendered as
text). -/
def camera_id_ (make model : String) (width height : Nat)
    (projection_type : String) (focalRepr : String) : String :=
  let model' : List Char :=
    if make ≠ "unknown" then pyReplace model.data make.data [] else model.data
  ⟨pyLower (joinSp [['v', '2'], pyStrip make.data, pyStrip model',
      natRepr width, natRepr height, projection_type.data, focalRepr.data.take 6])⟩

/-- The make component of the identity after normalisation (strip + lower). -/
def normMake (make : String) : List Char :=
  pyLower (pyStrip make.data)

/-- The model component after normalisation (make-substring removal, strip,
lower). -/
def normModel (make model : String) : List Char :=
  pyLower (pyStrip
    (if make ≠ "unknown" then pyReplace model.data make.data [] else model.data))

/-- The projection component after normalisation (lower). -/
def normProj (p : String) : List Char :=
  pyLower p.data

/-- The focal component after normalisation (6-character truncation +
lower). -/
def normFocal (f : String) : List Char :=
  pyLower (f.data.take 6)

theorem map_toLower_natRepr (n : Nat) :
    List.map Char.toLower (natRepr n) = natRepr n :=
  pyLower_natRepr n

theorem toLower_space : Char.toLower ' ' = ' ' := by decide

/-- `camera_id_` rendered as the concatenation of its normalised
components. -/
theorem camera_id_render (make model : String) (w h : Nat) (p f : String) :
    camera_id_ make model w h p f =
      ⟨['v', '2'] ++ ' ' :: (normMake make ++ ' ' :: (normModel make model ++
        ' ' :: (natRepr w ++ ' ' :: (natRepr h ++ ' ' :: (normProj p ++
        ' ' :: normFocal f)))))⟩ := by
  unfold camera_id_ normMake normModel normProj normFocal
  refine congrArg String.mk ?_
  simp [joinSp, pyLower, toLower_space, map_toLower_natRepr]

/-- C1 counterexample: `camera_id_` is not injective beyond the focal
truncation.  Changing only the model "EOS" → "eos" leaves the identity
unchanged (lowercasing), and changing only the make "a" → "a b" with model
"a b c" also leaves it unchanged (make/model are joined by the same separator
that may occur inside them). -/
theorem camera_id_counterexample :
    camera_id_ "Canon" "EOS" 640 480 "perspective" "0.85" =
      camera_id_ "Canon" "eos" 640 480 "perspective" "0.85" ∧
    ("EOS" : String) ≠ "eos" ∧
    camera_id_ "a" "a b c" 640 480 "perspective" "0.85" =
      camera_id_ "a b" "a b c" 640 480 "perspective" "0.85" ∧
    ("a" : String) ≠ "a b" := by
  refine ⟨?_, by decide, ?_, by decide⟩ <;> decide

/-- C1 amended: `camera_id_` is deterministic — it depends only on the
normalised components (lowercased/stripped make, model with the make
substring removed, decimal width and height, lowercased projection,
lowercased 6-character focal prefix) — and with the other five inputs fixed
it is injective up to that normalisation in the model, width, height,
projection and focal arguments; a make change can additionally collide with
the adjacent model component across the space separator. -/
theorem camera_id_amended :
    (∀ m1 m2 o1 o2 : String, ∀ w1 w2 h1 h2 : Nat, ∀ p1 p2 f1 f2 : String,
      normMake m1 = normMake m2 → normModel m1 o1 = normModel m2 o2 →
      w1 = w2 → h1 = h2 → normProj p1 = normProj p2 → normFocal f1 = normFocal f2 →
      camera_id_ m1 o1 w1 h1 p1 f1 = camera_id_ m2 o2 w2 h2 p2 f2) ∧
    (∀ m o1 o2 : String, ∀ w h : Nat, ∀ p f : String,
      camera_id_ m o1 w h p f = camera_id_ m o2 w h p f ↔
        normModel m o1 = normModel m o2) ∧
    (∀ m o : String, ∀ w1 w2 h : Nat, ∀ p f : String,
      camera_id_ m o w1 h p f = camera_id_ m o w2 h p f ↔ w1 = w2) ∧
    (∀ m o : String, ∀ w h1 h2 : Nat, ∀ p f : String,
      camera_id_ m o w h1 p f = camera_id_ m o w h2 p f ↔ h1 = h2) ∧
    (∀ m o : String, ∀ w h : Nat, ∀ p1 p2 f : String,
      camera_id_ m o w h p1 f = camera_id_ m o w h p2 f ↔ normProj p1 = normProj p2) ∧
    (∀ m o : String, ∀ w h : Nat, ∀ p f1 f2 : String,
      camera_id_ m o w h p f1 = camera_id_ m o w h p f2 ↔ normFocal f1 = normFocal f2) := by
  refine ⟨?_, ?_, ?_, ?_, ?_, ?_⟩
  · intro m1 m2 o1 o2 w1 w2 h1 h2 p1 p2 f1 f2 hm ho hw hh hp hf
    subst hw hh
    rw [camera_id_render, camera_id_render, hm, ho, hp, hf]
  · intro m o1 o2 w h p f
    constructor
    · intro heq
      rw [camera_id_render, camera_id_render] at heq
      have hd := congrArg String.data heq
      simpa using hd
    · intro ho
      rw [camera_id_render, camera_id_render, ho]
  · intro m o w1 w2 h p f
    constructor
    · intro heq
      rw [camera_id_render, camera_id_render] at heq
      have hd := congrArg String.data heq
      simp at hd
      exact natRepr_injective hd
    · intro hw
      rw [hw]
  · intro m o w h1 h2 p f
    constructor
    · intro heq
      rw [camera_id_render, camera_id_render] at heq
      have hd := congrArg String.data heq
      simp at hd
      exact natRepr_injective hd
    · intro hh
      rw [hh]
  · intro m o w h p1 p2 f
    constructor
    · intro heq
      rw [camera_id_render, camera_id_render] at heq
      have hd := congrArg String.data heq
      simpa using hd
    · intro hp
      rw [camera_id_render, camera_id_render, hp]
  · intro m o w h p f1 f2
    constructor
    · intro heq
      rw [camera_id_render, camera_id_render] at heq
      have hd := congrArg String.data heq
      simpa using hd
    · intro hf
      rw [camera_id_render, camera_id_render, hf]

/-- Witness for C1: two focal texts sharing a lowered 6-character prefix give
the identical camera identity. -/
theorem camera_id_amended_witness :
    camera_id_ "Nikon" "D90" 640 480 "perspective" "0.508712" =
      camera_id_ "Nikon" "D90" 640 480 "perspective" "0.5087199" :=
  (camera_id_amended.2.2.2.2.2 "Nikon" "D90" 640 480 "perspective"
    "0.508712" "0.5087199").mpr (by decide)

/-! ## Tag and XMP model for the geolocation extractors (exif.py lines 313–401)

`Tags` holds the GPS-related entries of the exifread tag mapping; absent
fields model absent tags.  `XmpDesc` is one parsed `rdf:Description` mapping;
the EXIF object's `self.xmp` is the list of them.  A drone-dji coordinate
string "±D.DDD" is modelled by its first character plus the float value of
the remainder (the source computes `float(s[1:])` and negates unless
`s[0] == '+'`). -/

structure SignedStr where
  head : Char
  mag : ℚ
deriving DecidableEq, Repr

/-- The numeric value the source assigns to a drone-dji coordinate string. -/
def signedVal (s : SignedStr) : ℚ :=
  if s.head = '+' then s.mag else -s.mag

/-- The first value of the "GPS GPSAltitude" tag: a rational, an int, or some
other (unconvertible) value. -/
inductive AltVal where
  | ratio (r : Ratio)
  | int (n : Int)
  | other
deriving DecidableEq, Repr

/-- A yaw/pitch/roll XMP field: a value `float()` accepts, or one on which it
raises `ValueError`. -/
inductive YprVal where
  | num (q : ℚ)
  | malformed
deriving DecidableEq, Repr

structure XmpDesc where
  djiLatitude : Option SignedStr := none
  djiLongitude : Option SignedStr := none
  djiAbsoluteAltitude : Option ℚ := none
  cameraYaw : Option YprVal := none
  cameraPitch : Option YprVal := none
  cameraRoll : Option YprVal := none
  djiGimbalYaw : Option YprVal := none
  djiGimbalPitch : Option YprVal := none
  djiGimbalRoll : Option YprVal := none
deriving DecidableEq, Repr

structure Tags where
  gpsLatitude : Option (Ratio × Ratio × Ratio) := none
  gpsLongitude : Option (Ratio × Ratio × Ratio) := none
  gpsLatitudeRef : Option String := none
  gpsLongitudeRef : Option String := none
  gpsAltitude : Option AltVal := none
  gpsAltitudeRef : Option Int := none
  gpsDOP : Option Ratio := none
deriving DecidableEq, Repr

/-- `EXIF.extract_ref_lon_lat`: reference letters with defaults "E"/"N",
returned in the source's `(reflon, reflat)` order. -/
def extract_ref_lon_lat (t : Tags) : String × String :=
  (t.gpsLongitudeRef.getD "E", t.gpsLatitudeRef.getD "N")

/-- The GPS-tag branch of `extract_lon_lat`: indexing
`tags["GPS GPSLongitude"]` raises `KeyError` when only the latitude tag is
present. -/
def gpsLatBranch (t : Tags) : Except String (Option ℚ × Option ℚ) :=
  match t.gpsLatitude with
  | some latv =>
    match t.gpsLongitude with
    | some lonv =>
      let rl := extract_ref_lon_lat t
      pure (gps_to_decimal lonv.1 lonv.2.1 lonv.2.2 rl.1,
            gps_to_decimal latv.1 latv.2.1 latv.2.2 rl.2)
    | none => Except.error "KeyError: GPS GPSLongitude"
  | none => pure (none, none)

/-- `EXIF.extract_lon_lat` (exif.py lines 349–358): drone-dji fields of the
first XMP description take priority over the GPS tags. -/
def extract_lon_lat (t : Tags) (xmp : List XmpDesc) :
    Except String (Option ℚ × Option ℚ) :=
  match xmp with
  | d :: _ =>
    match d.djiLatitude, d.djiLongitude with
    | some lat, some lon => pure (some (signedVal lon), some (signedVal lat))
    | some _, none => gpsLatBranch t
    | none, _ => gpsLatBranch t
  | [] => gpsLatBranch t

/-- The GPS-tag branch of `extract_altitude`, including the
`GPSAltitudeRef == 1` negation. -/
def gpsAltBranch (t : Tags) : Option ℚ :=
  match t.gpsAltitude with
  | some av =>
    let altitude : Option ℚ :=
      match av with
      | .ratio r => eval_frac r
      | .int n => some (n : ℚ)
      | .other => none
    if t.gpsAltitudeRef = some 1 then altitude.map (fun a => -a) else altitude
  | none => none

/-- `EXIF.extract_altitude` (exif.py lines 360–381): the drone-dji
AbsoluteAltitude of the first XMP description wins, unnegated; otherwise the
GPS altitude tag, negated when `GPSAltitudeRef == 1`. -/
def extract_altitude (t : Tags) (xmp : List XmpDesc) : Option ℚ :=
  match xmp with
  | d :: _ =>
    match d.djiAbsoluteAltitude with
    | some a => some a
    | none => gpsAltBranch t
  | [] => gpsAltBranch t

/-- `EXIF.extract_dop` (exif.py lines 383–386). -/
def extract_dop (t : Tags) : Option ℚ :=
  match t.gpsDOP with
  | some r => eval_frac r
  | none => none

/-- The altitude ceiling `maximum_altitude = 1e4` of exif.py. -/
def maximum_altitude : ℚ := 10000

structure Geo where
  latitude : Option ℚ := none
  longitude : Option ℚ := none
  altitude : Option ℚ := none
  dop : Option ℚ := none
deriving DecidableEq, Repr

/-- `EXIF.extract_geo` (exif.py lines 388–401): latitude/longitude are added
only together, altitude (clamped to `maximum_altitude`) and dop are added
independently. -/
def extract_geo (t : Tags) (xmp : List XmpDesc) : Except String Geo := do
  let altitude := extract_altitude t xmp
  let dop := extract_dop t
  let ll ← extract_lon_lat t xmp
  let d0 : Geo := {}
  let d1 := if ll.1.isSome ∧ ll.2.isSome then
    { d0 with latitude := ll.2, longitude := ll.1 } else d0
  let d2 := match altitude with
    | some a => { d1 with altitude := some (min maximum_altitude a) }
    | none => d1
  let d3 := match dop with
    | some q => { d2 with dop := some q }
    | none => d2
  pure d3

/-- C3 counterexample: with only a GPS altitude tag (no latitude/longitude
from any source) `extract_geo` returns a non-empty record carrying the
altitude, not the claimed empty mapping. -/
theorem extract_geo_counterexample :
    extract_geo { gpsAltitude := some (.int 5) } [] =
      Except.ok { latitude := none, longitude := none, altitude := some 5, dop := none } ∧
    ({ latitude := none, longitude := none, altitude := some 5, dop := none } : Geo) ≠
      ({} : Geo) := by
  constructor
  · have h5 : min maximum_altitude ((5 : Int) : ℚ) = 5 := by
      norm_num [maximum_altitude]
    simp [extract_geo, extract_altitude, gpsAltBranch, extract_dop,
      extract_lon_lat, gpsLatBranch, h5]
    rfl
  · intro h
    have := congrArg Geo.altitude h
    simp at this

/-- C3 amended: the latitude/longitude fields are present only when both
resolved (and only together); the altitude (clamped to 1e4) and dop fields
are added independently whenever available, so the record may be non-empty
without a position. -/
theorem extract_geo_spec (t : Tags) (xmp : List XmpDesc) (lon lat : Option ℚ)
    (hll : extract_lon_lat t xmp = Except.ok (lon, lat)) :
    extract_geo t xmp = Except.ok
      { latitude := if lon.isSome ∧ lat.isSome then lat else none,
        longitude := if lon.isSome ∧ lat.isSome then lon else none,
        altitude := (extract_altitude t xmp).map (fun a => min maximum_altitude a),
        dop := extract_dop t } := by
  cases halt : extract_altitude t xmp <;> cases hdop : extract_dop t <;>
    by_cases hb : lon.isSome ∧ lat.isSome <;>
      simp [extract_geo, hll, halt, hdop, hb]

/-- Witness for C3: DOP available but no position; the record carries only
the dop field. -/
theorem extract_geo_spec_witness :
    extract_geo { gpsDOP := some ⟨7, 2⟩ } [] = Except.ok
      { latitude := if (none : Option ℚ).isSome ∧ (none : Option ℚ).isSome
          then (none : Option ℚ) else none,
        longitude := if (none : Option ℚ).isSome ∧ (none : Option ℚ).isSome
          then (none : Option ℚ) else none,
        altitude := (extract_altitude { gpsDOP := some ⟨7, 2⟩ } []).map
          (fun a => min maximum_altitude a),
        dop := extract_dop { gpsDOP := some ⟨7, 2⟩ } } :=
  extract_geo_spec { gpsDOP := some ⟨7, 2⟩ } [] none none rfl

/-- C10 counterexample: the drone-dji AbsoluteAltitude is read only from the
first XMP description.  Here the second description carries it, so the code
falls back to the GPS tag and applies the `GPSAltitudeRef == 1` negation,
returning −5 instead of the drone altitude 100. -/
theorem extract_altitude_counterexample :
    extract_altitude { gpsAltitude := some (.int 5), gpsAltitudeRef := some 1 }
        [{}, { djiAbsoluteAltitude := some 100 }] = some (-5) ∧
    ([({} : XmpDesc), { djiAbsoluteAltitude := some 100 }].any
        (fun d => d.djiAbsoluteAltitude.isSome)) = true ∧
    some (-5 : ℚ) ≠ some (100 : ℚ) := by
  refine ⟨?_, by decide, by norm_num⟩
  simp [extract_altitude, gpsAltBranch]

/-- C10 amended: whenever the FIRST XMP description carries a drone-dji
AbsoluteAltitude, `extract_altitude` returns it unchanged, regardless of any
GPS altitude tags (in particular `GPSAltitudeRef`); a value carried only by a
later description is ignored. -/
theorem extract_altitude_dji_first (t : Tags) (d : XmpDesc) (rest : List XmpDesc)
    (a : ℚ) (hd : d.djiAbsoluteAltitude = some a) :
    extract_altitude t (d :: rest) = some a := by
  simp [extract_altitude, hd]

/-- Witness for C10: a first-description drone altitude of 100 wins over a
GPS altitude of 5 with `GPSAltitudeRef = 1`. -/
theorem extract_altitude_dji_first_witness :
    extract_altitude { gpsAltitude := some (.int 5), gpsAltitudeRef := some 1 }
      [{ djiAbsoluteAltitude := some 100 }] = some 100 :=
  extract_altitude_dji_first { gpsAltitude := some (.int 5), gpsAltitudeRef := some 1 }
    { djiAbsoluteAltitude := some 100 } [] 100 rfl

/-! ## `EXIF.extract_opk` (exif.py lines 486–608)

Control-flow model.  The numeric tail of the function — degree/radian
conversion, the yaw-pitch-roll rotation matrix, the finite-difference north
vector through the external `ecef_from_lla`, and the arctangent decoding —
is floating-point trigonometry on an external geodesy capability; it is
abstracted as the `angles` parameter, which may also return `none` for the
degenerate zero-norm north vector.

The guard in the source is `if np.all(ypr) is not None:`.  `np.all` returns a
numpy bool, which is never `None`, so the guard is ALWAYS taken; when any of
yaw/pitch/roll is unresolved (tags absent, or a `ValueError` was caught while
converting them), `ypr` still holds `None` entries and the following
`np.radians(ypr)` raises a `TypeError` that no handler catches.  The model
makes that raise explicit. -/

structure Opk where
  omega : ℚ
  phi : ℚ
  kappa : ℚ
deriving DecidableEq, Repr

/-- Resolution of yaw/pitch/roll from the first XMP description: generic
camera tags first, else drone-gimbal tags with the +90° pitch offset; `none`
when the tags are absent or any `float()` conversion raised (caught)
`ValueError`, leaving `ypr = [None, None, None]`. -/
def resolveYpr (d : XmpDesc) : Option (ℚ × ℚ × ℚ) :=
  match d.cameraYaw, d.cameraPitch, d.cameraRoll with
  | some y, some p, some r =>
    match y, p, r with
    | .num qy, .num qp, .num qr => some (qy, qp, qr)
    | _, _, _ => none
  | _, _, _ =>
    match d.djiGimbalYaw, d.djiGimbalPitch, d.djiGimbalRoll with
    | some y, some p, some r =>
      match y, p, r with
      | .num qy, .num qp, .num qr => some (qy, qp + 90, qr)
      | _, _, _ => none
    | _, _, _ => none

/-- Python truthiness of the geo dict: non-empty. -/
def geoTruthy (g : Geo) : Bool :=
  g.latitude.isSome || g.longitude.isSome || g.altitude.isSome || g.dop.isSome

/-- `EXIF.extract_opk`: the outer guard needs an XMP blob, a truthy geo dict
and both latitude and longitude keys; inside, an unresolved yaw/pitch/roll
triple reaches `np.radians` with `None` entries and raises. -/
def extract_opk (angles : ℚ → ℚ → ℚ → Geo → Option Opk) (xmp : List XmpDesc)
    (geo : Geo) : Except String (Option Opk) :=
  match xmp with
  | [] => pure none
  | d :: _ =>
    if geoTruthy geo ∧ geo.latitude.isSome ∧ geo.longitude.isSome then
      match resolveYpr d with
      | some (y, p, r) => pure (angles y p r geo)
      | none => Except.error "TypeError: ufunc radians not supported on NoneType"
    else pure none

/-- C2: whenever an XMP blob exists, the geolocation has latitude and
longitude, but yaw/pitch/roll are unresolved (here: neither tag family
present), `extract_opk` raises instead of returning an absent result — for
every possible numeric continuation. -/
theorem extract_opk_code_bug (angles : ℚ → ℚ → ℚ → Geo → Option Opk)
    (d : XmpDesc) (rest : List XmpDesc) (g : Geo)
    (hy : d.cameraYaw = none) (hgy : d.djiGimbalYaw = none)
    (hlat : g.latitude.isSome) (hlon : g.longitude.isSome) :
    extract_opk angles (d :: rest) g =
      Except.error "TypeError: ufunc radians not supported on NoneType" := by
  have htr : geoTruthy g = true := by simp [geoTruthy, hlat]
  have hr : resolveYpr d = none := by simp [resolveYpr, hy, hgy]
  simp [extract_opk, htr, hlat, hlon, hr]

/-- Witness for C2 at the concrete failing input: one tag-free XMP
description and a geolocation (1, 2). -/
theorem extract_opk_code_bug_witness :
    extract_opk (fun _ _ _ _ => none) [{}]
        { latitude := some 1, longitude := some 2 } =
      Except.error "TypeError: ufunc radians not supported on NoneType" :=
  extract_opk_code_bug (fun _ _ _ _ => none) {} []
    { latitude := some 1, longitude := some 2 } rfl rfl rfl rfl

/-! ## Python dictionaries and the calibration resolver (exif.py lines 637–742)

Calibration records and metadata records are Python dicts; we model them as
association lists over string keys with float or string values.  The
hard-coded calibration database `camera_calibration()[0]` (an external
read-only reference table keyed by lowercase make, then "ALL" / "MODEL" /
"FOCAL") is a parameter. -/

inductive Val where
  | num (q : ℚ)
  | str (s : String)
deriving DecidableEq, Repr

abbrev Dict := List (String × Val)

/-- First-match association lookup (Python dict access; keys are unique in
any dict the source builds). -/
def aLookup {κ α : Type} [DecidableEq κ] : List (κ × α) → κ → Option α
  | [], _ => none
  | (k', v) :: rest, k => if k' = k then some v else aLookup rest k

/-- Python `d.get(k)` / `k in d`. -/
def dGet? (d : Dict) (k : String) : Option Val :=
  aLookup d k

/-- Python `k in d`. -/
def dMem (d : Dict) (k : String) : Bool :=
  (dGet? d k).isSome

/-- Python `d[k]`, raising `KeyError` when absent. -/
def getItem (d : Dict) (k : String) : Except String Val :=
  match dGet? d k with
  | some v => pure v
  | none => Except.error ("KeyError: " ++ k)

/-- Using a dict value as a float; a string raises `TypeError` in the
arithmetic the source performs on it. -/
def asNum (v : Val) : Except String ℚ :=
  match v with
  | .num q => pure q
  | .str _ => Except.error "TypeError: expected a number"

/-- Using a dict value as a string; a float raises `AttributeError` on the
string methods the source calls on it. -/
def asStr (v : Val) : Except String String :=
  match v with
  | .str s => pure s
  | .num _ => Except.error "AttributeError: expected a string"

/-- Python truthiness of a dict value: `0.0` and `""` are false. -/
def pyTruthyVal (v : Val) : Bool :=
  match v with
  | .num q => decide (q ≠ 0)
  | .str s => decide (s ≠ "")

/-- Python 3 `round` to an integer: round-half-to-even. -/
def pyRound (x : ℚ) : Int :=
  let f := x.floor
  let r := x - (f : ℚ)
  if r < 1 / 2 then f
  else if 1 / 2 < r then f + 1
  else if f % 2 = 0 then f else f + 1

/-- One make's entry of the hard-coded calibration table:
`{"ALL": calib}` or `{"MODEL": {model: calib}}` or
`{"FOCAL": {fmm35: calib}}`, checked in that order. -/
structure MakeEntry where
  all : Option Dict := none
  model_entries : Option (List (String × Dict)) := none
  focal_entries : Option (List (Int × Dict)) := none
deriving DecidableEq, Repr

abbrev CalibTable := List (String × MakeEntry)

/-- The pure lookup core of `hard_coded_calibration`: make, then
ALL / MODEL / FOCAL with first-present-key precedence; a present MODEL or
FOCAL sub-table that misses the key yields no match without falling
through. -/
def hcLookup (table : CalibTable) (fmm35 : Int) (make model : String) : Option Dict :=
  match aLookup table make with
  | none => none
  | some models =>
    match models.all with
    | some c => some c
    | none =>
      match models.model_entries with
      | some mt => aLookup mt model
      | none =>
        match models.focal_entries with
        | some ft => aLookup ft fmm35
        | none => none

/-- `hard_coded_calibration` from exif.py: reads `focal_ratio`, `make`,
`model` from the metadata dict (raising `KeyError`/type errors when absent or
of the wrong type) and looks up the table. -/
def hard_coded_calibration (table : CalibTable) (exif : Dict) :
    Except String (Option Dict) := do
  let focalV ← getItem exif "focal_ratio"
  let focal ← asNum focalV
  let fmm35 : Int := pyRound (focal * 36)
  let makeV ← getItem exif "make"
  let makeS ← asStr makeV
  let modelV ← getItem exif "model"
  let modelS ← asStr modelV
  pure (hcLookup table fmm35 (pyLowerS (pyStripS makeS)) (pyLowerS (pyStripS modelS)))

/-- `focal_ratio_calibration` from exif.py (lines 659–668). -/
def focal_ratio_calibration (exif : Dict) : Option Dict :=
  match dGet? exif "focal_ratio" with
  | some v =>
    if pyTruthyVal v then
      some [("focal", v), ("k1", .num 0), ("k2", .num 0), ("p1", .num 0),
            ("p2", .num 0), ("k3", .num 0)]
    else none
  | none => none

/-- `focal_xy_calibration` from exif.py (lines 671–691):
`exif.get("focal_x", exif.get("focal_ratio"))`. -/
def focal_xy_calibration (exif : Dict) : Option Dict :=
  let focal := match dGet? exif "focal_x" with
    | some v => some v
    | none => dGet? exif "focal_ratio"
  match focal with
  | some v =>
    if pyTruthyVal v then
      some [("focal_x", v), ("focal_y", v),
            ("c_x", (dGet? exif "c_x").getD (.num 0)),
            ("c_y", (dGet? exif "c_y").getD (.num 0)),
            ("k1", .num 0), ("k2", .num 0), ("p1", .num 0), ("p2", .num 0),
            ("k3", .num 0), ("k4", .num 0), ("k5", .num 0), ("k6", .num 0),
            ("s0", .num 0), ("s1", .num 0), ("s2", .num 0), ("s3", .num 0)]
    else none
  | none => none

/-- `default_calibration` from exif.py (lines 694–713); the configuration is
modelled by its `default_focal_prior` value. -/
def default_calibration (prior : ℚ) : Dict :=
  [("focal", .num prior), ("focal_x", .num prior), ("focal_y", .num prior),
   ("c_x", .num 0), ("c_y", .num 0), ("k1", .num 0), ("k2", .num 0),
   ("p1", .num 0), ("p2", .num 0), ("k3", .num 0), ("k4", .num 0),
   ("k5", .num 0), ("k6", .num 0), ("s0", .num 0), ("s1", .num 0),
   ("s2", .num 0), ("s3", .num 0)]

/-- Python `a or b` on an optional dict and a fallback: a missing (`None`) or
empty (falsy) dict falls through. -/
def pyOrD (a : Option Dict) (b : Dict) : Dict :=
  match a with
  | some d => if d.isEmpty then b else d
  | none => b

def default_projection : String := "perspective"

/-- `d.get("projection_type", default_projection).lower()` as used on both
metadata and calibration dicts. -/
def getProjection (d : Dict) : Except String String :=
  match (dGet? d "projection_type").getD (.str default_projection) with
  | .str s => pure (pyLowerS s)
  | .num _ => Except.error "AttributeError: lower on a non-string"

/-- The asymmetric/distortion projection family of the resolver's
`if` condition. -/
def isXYFamily (pt : String) : Bool :=
  pt = "brown" || pt = "fisheye_opencv" || pt = "radial" || pt = "simple_radial" ||
  pt = "fisheye62" || pt = "fisheye624"

/-- The final `projection_type` key insertion of the resolver. -/
def set_projection (calib : Dict) (pt : String) : Dict :=
  if dMem calib "projection_type" then calib else calib ++ [("projection_type", .str pt)]

/-- `calibration_from_metadata` from exif.py (lines 716–742). -/
def calibration_from_metadata (table : CalibTable) (metadata : Dict) (prior : ℚ) :
    Except String Dict := do
  let pt ← getProjection metadata
  let hc ← hard_coded_calibration table metadata
  let calib :=
    if isXYFamily pt then
      pyOrD hc (pyOrD (focal_xy_calibration metadata) (default_calibration prior))
    else
      pyOrD hc (pyOrD (focal_ratio_calibration metadata) (default_calibration prior))
  pure (set_projection calib pt)

theorem pyOrD_truthy (d : Dict) (b : Dict) (h : d.isEmpty = false) :
    pyOrD (some d) b = d := by
  simp [pyOrD, h]

theorem pyOrD_falsy (a : Option Dict) (b : Dict) (h : a = none ∨ a = some []) :
    pyOrD a b = b := by
  rcases h with rfl | rfl <;> simp [pyOrD]

/-- C7: on any well-formed metadata record (string make/model, float
focal_ratio, string-or-absent projection type) the resolver always succeeds
and tries, in order, the hard-coded lookup, then the family-appropriate
generic calibration (`focal_xy` for the six asymmetric types, `focal_ratio`
otherwise), then the configuration default, returning the first truthy one,
with the projection type added when the chosen dict lacks it. -/
theorem calibration_from_metadata_spec (table : CalibTable) (metadata : Dict)
    (prior : ℚ) (fr : ℚ) (mk md : String)
    (hfr : dGet? metadata "focal_ratio" = some (.num fr))
    (hmk : dGet? metadata "make" = some (.str mk))
    (hmd : dGet? metadata "model" = some (.str md))
    (hpt : dGet? metadata "projection_type" = none ∨
      ∃ s, dGet? metadata "projection_type" = some (.str s)) :
    ∃ pt hc,
      getProjection metadata = Except.ok pt ∧
      hard_coded_calibration table metadata = Except.ok hc ∧
      (isXYFamily pt = true ↔ pt ∈ ["brown", "fisheye_opencv", "radial",
        "simple_radial", "fisheye62", "fisheye624"]) ∧
      calibration_from_metadata table metadata prior = Except.ok
        (set_projection
          (pyOrD hc (pyOrD
            (if isXYFamily pt then focal_xy_calibration metadata
             else focal_ratio_calibration metadata)
            (default_calibration prior))) pt) ∧
      (∀ d, hc = some d → d.isEmpty = false →
        calibration_from_metadata table metadata prior =
          Except.ok (set_projection d pt)) ∧
      ((hc = none ∨ hc = some []) →
        ∀ g, (if isXYFamily pt then focal_xy_calibration metadata
              else focal_ratio_calibration metadata) = some g → g.isEmpty = false →
        calibration_from_metadata table metadata prior =
          Except.ok (set_projection g pt)) ∧
      ((hc = none ∨ hc = some []) →
        (if isXYFamily pt then focal_xy_calibration metadata
         else focal_ratio_calibration metadata) = none →
        calibration_from_metadata table metadata prior =
          Except.ok (set_projection (default_calibration prior) pt)) := by
  have hptv : ∃ pt, getProjection metadata = Except.ok pt := by
    rcases hpt with hnone | ⟨s, hs⟩
    · exact ⟨pyLowerS default_projection, by simp only [getProjection, hnone]; rfl⟩
    · exact ⟨pyLowerS s, by simp only [getProjection, hs]; rfl⟩
  obtain ⟨pt, hptv⟩ := hptv
  have hhc : hard_coded_calibration table metadata = Except.ok
      (hcLookup table (pyRound (fr * 36)) (pyLowerS (pyStripS mk))
        (pyLowerS (pyStripS md))) := by
    simp only [hard_coded_calibration, getItem, hfr, hmk, hmd, asNum, asStr,
      Bind.bind, Except.bind]
    rfl
  set hc := hcLookup table (pyRound (fr * 36)) (pyLowerS (pyStripS mk))
    (pyLowerS (pyStripS md)) with hhcdef
  have hmain : calibration_from_metadata table metadata prior = Except.ok
      (set_projection
        (pyOrD hc (pyOrD
          (if isXYFamily pt then focal_xy_calibration metadata
           else focal_ratio_calibration metadata)
          (default_calibration prior))) pt) := by
    by_cases hxy : isXYFamily pt = true <;>
      simp [calibration_from_metadata, hptv, hhc, hxy, Bind.bind, Except.bind] <;> rfl
  refine ⟨pt, hc, hptv, hhc, ?_, hmain, ?_, ?_, ?_⟩
  · simp [isXYFamily]
    tauto
  · intro d hd hne
    rw [hmain, hd, pyOrD_truthy _ _ hne]
  · intro hfal g hg hne
    rw [hmain, pyOrD_falsy _ _ hfal, hg, pyOrD_truthy _ _ hne]
  · intro hfal hg
    rw [hmain, pyOrD_falsy _ _ hfal, hg, pyOrD_falsy _ _ (Or.inl rfl)]

/-- Witness for C7: empty table, metadata with falsy focal ratio — the
resolver falls through to the configuration default. -/
theorem calibration_from_metadata_spec_witness :
    ∃ pt hc,
      getProjection [("make", Val.str "Canon"), ("model", Val.str "X"),
        ("focal_ratio", Val.num 0)] = Except.ok pt ∧
      hard_coded_calibration [] [("make", Val.str "Canon"), ("model", Val.str "X"),
        ("focal_ratio", Val.num 0)] = Except.ok hc ∧
      (isXYFamily pt = true ↔ pt ∈ ["brown", "fisheye_opencv", "radial",
        "simple_radial", "fisheye62", "fisheye624"]) ∧
      calibration_from_metadata [] [("make", Val.str "Canon"), ("model", Val.str "X"),
          ("focal_ratio", Val.num 0)] (17 / 20) = Except.ok
        (set_projection
          (pyOrD hc (pyOrD
            (if isXYFamily pt
             then focal_xy_calibration [("make", Val.str "Canon"),
               ("model", Val.str "X"), ("focal_ratio", Val.num 0)]
             else focal_ratio_calibration [("make", Val.str "Canon"),
               ("model", Val.str "X"), ("focal_ratio", Val.num 0)])
            (default_calibration (17 / 20)))) pt) ∧
      (∀ d, hc = some d → d.isEmpty = false →
        calibration_from_metadata [] [("make", Val.str "Canon"), ("model", Val.str "X"),
            ("focal_ratio", Val.num 0)] (17 / 20) =
          Except.ok (set_projection d pt)) ∧
      ((hc = none ∨ hc = some []) →
        ∀ g, (if isXYFamily pt
              then focal_xy_calibration [("make", Val.str "Canon"),
                ("model", Val.str "X"), ("focal_ratio", Val.num 0)]
              else focal_ratio_calibration [("make", Val.str "Canon"),
                ("model", Val.str "X"), ("focal_ratio", Val.num 0)]) = some g →
          g.isEmpty = false →
        calibration_from_metadata [] [("make", Val.str "Canon"), ("model", Val.str "X"),
            ("focal_ratio", Val.num 0)] (17 / 20) =
          Except.ok (set_projection g pt)) ∧
      ((hc = none ∨ hc = some []) →
        (if isXYFamily pt
         then focal_xy_calibration [("make", Val.str "Canon"),
           ("model", Val.str "X"), ("focal_ratio", Val.num 0)]
         else focal_ratio_calibration [("make", Val.str "Canon"),
           ("model", Val.str "X"), ("focal_ratio", Val.num 0)]) = none →
        calibration_from_metadata [] [("make", Val.str "Canon"), ("model", Val.str "X"),
            ("focal_ratio", Val.num 0)] (17 / 20) =
          Except.ok (set_projection (default_calibration (17 / 20)) pt)) :=
  calibration_from_metadata_spec [] [("make", Val.str "Canon"), ("model", Val.str "X"),
    ("focal_ratio", Val.num 0)] (17 / 20) 0 "Canon" "X" rfl rfl rfl (Or.inl rfl)

/-! ## Camera factory (exif.py lines 745–849)

The external `pygeometry.Camera` constructors are modelled as constructors of
an inductive type carrying their numeric arguments; `float` division
`focal_y / focal_x` raises `ZeroDivisionError` on a zero `focal_x` exactly as
Python does. -/

inductive Camera where
  | perspective (focal k1 k2 : ℚ)
  | brown (fx ar cx cy k1 k2 k3 p1 p2 : ℚ)
  | fisheye (focal k1 k2 : ℚ)
  | fisheye_opencv (fx ar cx cy k1 k2 k3 k4 : ℚ)
  | fisheye62 (fx ar cx cy k1 k2 k3 k4 k5 k6 p1 p2 : ℚ)
  | fisheye624 (fx ar cx cy k1 k2 k3 k4 k5 k6 p1 p2 s0 s1 s2 s3 : ℚ)
  | radial (fx ar cx cy k1 k2 : ℚ)
  | simple_radial (fx ar cx cy k1 : ℚ)
  | dual (transition focal k1 k2 : ℚ)
  | spherical
deriving DecidableEq, Repr

/-- A constructed camera with the identity/size fields copied from the
metadata afterwards. -/
structure CameraObj where
  cam : Camera
  id : String
  width : Int
  height : Int
deriving DecidableEq, Repr

/-- Python float division: raises `ZeroDivisionError` on a zero divisor. -/
def pyDiv (a b : ℚ) : Except String ℚ :=
  if b = 0 then Except.error "ZeroDivisionError: float division by zero"
  else pure (a / b)

/-- `calib[k]` used as a float. -/
def getNum (d : Dict) (k : String) : Except String ℚ := do
  let v ← getItem d k
  asNum v

/-- Python `int()` truncation toward zero of a float. -/
def pyIntTrunc (q : ℚ) : Int :=
  if q < 0 then -((-q).floor) else q.floor

/-- Modelled from the spec: `pygeometry.Camera.is_panorama` is an external
capability (the pygeometry module is not part of the shown sources); the spec
names exactly one panorama constructor family, "spherical (panorama)". -/
def is_panorama (pt : String) : Bool :=
  pt = "spherical"

/-- The projection types with a matching constructor in the factory's
dispatch chain. -/
def knownProjection (pt : String) : Bool :=
  pt = "perspective" || pt = "brown" || pt = "fisheye" || pt = "fisheye_opencv" ||
  pt = "fisheye62" || pt = "fisheye624" || pt = "radial" || pt = "simple_radial" ||
  pt = "dual" || is_panorama pt

/-- The perspective branch of the factory's dispatch. -/
def mkPerspective (calib : Dict) : Except String Camera := do
  let f ← getNum calib "focal"
  let k1 ← getNum calib "k1"
  let k2 ← getNum calib "k2"
  pure (Camera.perspective f k1 k2)

/-- The brown branch of the factory's dispatch. -/
def mkBrown (calib : Dict) : Except String Camera := do
  let fx ← getNum calib "focal_x"
  let fy ← getNum calib "focal_y"
  let ar ← pyDiv fy fx
  let cx ← getNum calib "c_x"
  let cy ← getNum calib "c_y"
  let k1 ← getNum calib "k1"
  let k2 ← getNum calib "k2"
  let k3 ← getNum calib "k3"
  let p1 ← getNum calib "p1"
  let p2 ← getNum calib "p2"
  pure (Camera.brown fx ar cx cy k1 k2 k3 p1 p2)

/-- The fisheye branch of the factory's dispatch. -/
def mkFisheye (calib : Dict) : Except String Camera := do
  let f ← getNum calib "focal"
  let k1 ← getNum calib "k1"
  let k2 ← getNum calib "k2"
  pure (Camera.fisheye f k1 k2)

/-- The fisheye_opencv branch of the factory's dispatch. -/
def mkFisheyeOpencv (calib : Dict) : Except String Camera := do
  let fx ← getNum calib "focal_x"
  let fy ← getNum calib "focal_y"
  let ar ← pyDiv fy fx
  let cx ← getNum calib "c_x"
  let cy ← getNum calib "c_y"
  let k1 ← getNum calib "k1"
  let k2 ← getNum calib "k2"
  let k3 ← getNum calib "k3"
  let k4 ← getNum calib "k4"
  pure (Camera.fisheye_opencv fx ar cx cy k1 k2 k3 k4)

/-- The fisheye62 branch of the factory's dispatch. -/
def mkFisheye62 (calib : Dict) : Except String Camera := do
  let fx ← getNum calib "focal_x"
  let fy ← getNum calib "focal_y"
  let ar ← pyDiv fy fx
  let cx ← getNum calib "c_x"
  let cy ← getNum calib "c_y"
  let k1 ← getNum calib "k1"
  let k2 ← getNum calib "k2"
  let k3 ← getNum calib "k3"
  let k4 ← getNum calib "k4"
  let k5 ← getNum calib "k5"
  let k6 ← getNum calib "k6"
  let p1 ← getNum calib "p1"
  let p2 ← getNum calib "p2"
  pure (Camera.fisheye62 fx ar cx cy k1 k2 k3 k4 k5 k6 p1 p2)

/-- The fisheye624 branch of the factory's dispatch. -/
def mkFisheye624 (calib : Dict) : Except String Camera := do
  let fx ← getNum calib "focal_x"
  let fy ← getNum calib "focal_y"
  let ar ← pyDiv fy fx
  let cx ← getNum calib "c_x"
  let cy ← getNum calib "c_y"
  let k1 ← getNum calib "k1"
  let k2 ← getNum calib "k2"
  let k3 ← getNum calib "k3"
  let k4 ← getNum calib "k4"
  let k5 ← getNum calib "k5"
  let k6 ← getNum calib "k6"
  let p1 ← getNum calib "p1"
  let p2 ← getNum calib "p2"
  let s0 ← getNum calib "s0"
  let s1 ← getNum calib "s1"
  let s2 ← getNum calib "s2"
  let s3 ← getNum calib "s3"
  pure (Camera.fisheye624 fx ar cx cy k1 k2 k3 k4 k5 k6 p1 p2 s0 s1 s2 s3)

/-- The radial branch of the factory's dispatch. -/
def mkRadial (calib : Dict) : Except String Camera := do
  let fx ← getNum calib "focal_x"
  let fy ← getNum calib "focal_y"
  let ar ← pyDiv fy fx
  let cx ← getNum calib "c_x"
  let cy ← getNum calib "c_y"
  let k1 ← getNum calib "k1"
  let k2 ← getNum calib "k2"
  pure (Camera.radial fx ar cx cy k1 k2)

/-- The simple_radial branch of the factory's dispatch. -/
def mkSimpleRadial (calib : Dict) : Except String Camera := do
  let fx ← getNum calib "focal_x"
  let fy ← getNum calib "focal_y"
  let ar ← pyDiv fy fx
  let cx ← getNum calib "c_x"
  let cy ← getNum calib "c_y"
  let k1 ← getNum calib "k1"
  pure (Camera.simple_radial fx ar cx cy k1)

/-- The dual branch of the factory's dispatch. -/
def mkDual (calib : Dict) : Except String Camera := do
  let tr ← getNum calib "transition"
  let f ← getNum calib "focal"
  let k1 ← getNum calib "k1"
  let k2 ← getNum calib "k2"
  pure (Camera.dual tr f k1 k2)

/-- The dispatch chain of the camera factory on the lowercased projection
type, in the source's `if/elif` order; the final `else` raises the fatal
unsupported-projection error. -/
def dispatchCamera (calib : Dict) (calib_pt : String) : Except String Camera :=
  if calib_pt = "perspective" then mkPerspective calib
  else if calib_pt = "brown" then mkBrown calib
  else if calib_pt = "fisheye" then mkFisheye calib
  else if calib_pt = "fisheye_opencv" then mkFisheyeOpencv calib
  else if calib_pt = "fisheye62" then mkFisheye62 calib
  else if calib_pt = "fisheye624" then mkFisheye624 calib
  else if calib_pt = "radial" then mkRadial calib
  else if calib_pt = "simple_radial" then mkSimpleRadial calib
  else if calib_pt = "dual" then mkDual calib
  else if is_panorama calib_pt then pure Camera.spherical
  else Except.error ("ValueError: Unknown projection type: " ++ calib_pt)

/-- The trailing assignments `camera.id/width/height = metadata[...]`. -/
def attachMeta (metadata : Dict) (cam : Camera) : Except String CameraObj := do
  let idV ← getItem metadata "camera"
  let idS ← asStr idV
  let wV ← getItem metadata "width"
  let w ← asNum wV
  let hV ← getItem metadata "height"
  let h ← asNum hV
  pure { cam := cam, id := idS, width := pyIntTrunc w, height := pyIntTrunc h }

/-- `camera_from_exif_metadata` from exif.py: resolve the calibration via
`calibration_func`, dispatch the lowercased projection type to a constructor
(raising `ValueError` when none matches), then copy identity, width and
height from the metadata record. -/
def camera_from_exif_metadata (metadata : Dict) (prior : ℚ)
    (calibration_func : Dict → ℚ → Except String Dict) :
    Except String CameraObj := do
  let calib ← calibration_func metadata prior
  let calib_pt ← getProjection calib
  let cam ← dispatchCamera calib calib_pt
  attachMeta metadata cam

/-- A calibration dict carrying every constructor key with value `v` (and
aspect sources `focal_x = focal_y = v`). -/
def fullCalib (pt : String) (v : ℚ) : Dict :=
  [("projection_type", .str pt), ("focal", .num v), ("focal_x", .num v),
   ("focal_y", .num v), ("c_x", .num v), ("c_y", .num v), ("k1", .num v),
   ("k2", .num v), ("k3", .num v), ("k4", .num v), ("k5", .num v),
   ("k6", .num v), ("p1", .num v), ("p2", .num v), ("s0", .num v),
   ("s1", .num v), ("s2", .num v), ("s3", .num v), ("transition", .num v)]

/-- C5 counterexample: a resolved calibration of the known family "brown" can
still fail to produce a camera.  With an empty hard-coded table, metadata of
projection type "brown" and falsy focal ratio, and a configured focal prior
of 0, the resolver returns the default calibration with `focal_x = 0`, and
the brown constructor's aspect-ratio division `focal_y / focal_x` raises
`ZeroDivisionError` — so no camera is returned although the family is
known. -/
theorem camera_from_exif_metadata_counterexample :
    camera_from_exif_metadata
        [("make", Val.str "unknown"), ("model", Val.str "unknown"),
         ("focal_ratio", Val.num 0), ("projection_type", Val.str "brown"),
         ("camera", Val.str "cam"), ("width", Val.num 640), ("height", Val.num 480)]
        0 (fun m p => calibration_from_metadata [] m p) =
      Except.error "ZeroDivisionError: float division by zero" ∧
    knownProjection "brown" = true := by
  have hlow : pyLowerS "brown" = "brown" := rfl
  have h0 : pyTruthyVal (.num 0) = false := by simp [pyTruthyVal]
  refine ⟨?_, rfl⟩
  simp [camera_from_exif_metadata, calibration_from_metadata, getProjection,
    hard_coded_calibration, hcLookup, getItem, dGet?, aLookup, asNum, asStr,
    focal_xy_calibration, pyTruthyVal, pyOrD, set_projection, dMem,
    default_calibration, dispatchCamera, mkBrown, attachMeta, getNum, pyDiv,
    isXYFamily, hlow, h0, Bind.bind, Except.bind, Pure.pure, Except.pure]

/-- C5 amended: a resolved calibration whose projection type matches no
constructor raises the fatal unsupported-projection `ValueError` (with no
camera object); a known family returns a constructed camera provided the
calibration supplies its constructor's keys with a non-zero `focal_x` where
the aspect ratio `focal_y / focal_x` is computed. -/
theorem camera_from_exif_metadata_spec :
    (∀ (metadata : Dict) (prior : ℚ) (cf : Dict → ℚ → Except String Dict)
        (calib : Dict) (pt : String),
      cf metadata prior = Except.ok calib →
      getProjection calib = Except.ok pt →
      knownProjection pt = false →
      camera_from_exif_metadata metadata prior cf =
        Except.error ("ValueError: Unknown projection type: " ++ pt)) ∧
    (∀ (pt : String) (v : ℚ) (metadata : Dict) (idS : String) (w h : ℚ),
      knownProjection pt = true → v ≠ 0 →
      dGet? metadata "camera" = some (.str idS) →
      dGet? metadata "width" = some (.num w) →
      dGet? metadata "height" = some (.num h) →
      ∃ c, camera_from_exif_metadata metadata 0
        (fun _ _ => Except.ok (fullCalib pt v)) = Except.ok c) := by
  constructor
  · intro metadata prior cf calib pt hcf hpt hK
    have h1 : ¬ pt = "perspective" := fun h => by subst h; exact absurd hK (by decide)
    have h2 : ¬ pt = "brown" := fun h => by subst h; exact absurd hK (by decide)
    have h3 : ¬ pt = "fisheye" := fun h => by subst h; exact absurd hK (by decide)
    have h4 : ¬ pt = "fisheye_opencv" := fun h => by subst h; exact absurd hK (by decide)
    have h5 : ¬ pt = "fisheye62" := fun h => by subst h; exact absurd hK (by decide)
    have h6 : ¬ pt = "fisheye624" := fun h => by subst h; exact absurd hK (by decide)
    have h7 : ¬ pt = "radial" := fun h => by subst h; exact absurd hK (by decide)
    have h8 : ¬ pt = "simple_radial" := fun h => by subst h; exact absurd hK (by decide)
    have h9 : ¬ pt = "dual" := fun h => by subst h; exact absurd hK (by decide)
    have h10 : ¬ pt = "spherical" := fun h => by subst h; exact absurd hK (by decide)
    simp [camera_from_exif_metadata, hcf, hpt, dispatchCamera, h1, h2, h3, h4,
      h5, h6, h7, h8, h9, h10, is_panorama, Bind.bind, Except.bind,
      Pure.pure, Except.pure]
  · intro pt v metadata idS w h hK hv hid hw hh
    have hcomb : ∀ (calib : Dict) (cpt : String) (cam : Camera),
        getProjection calib = Except.ok cpt →
        dispatchCamera calib cpt = Except.ok cam →
        camera_from_exif_metadata metadata 0 (fun _ _ => Except.ok calib) =
          Except.ok { cam := cam, id := idS, width := pyIntTrunc w,
                      height := pyIntTrunc h } := by
      intro calib cpt cam hp hd
      simp [camera_from_exif_metadata, hp, hd, attachMeta, getItem, hid, hw, hh,
        asStr, asNum, Bind.bind, Except.bind, Pure.pure, Except.pure]
    simp [knownProjection, is_panorama] at hK
    rcases hK with ((((((((rfl | rfl) | rfl) | rfl) | rfl) | rfl) | rfl) | rfl) | rfl) | rfl
    · exact ⟨_, hcomb _ "perspective" (Camera.perspective v v v)
        (by simp [getProjection, fullCalib, dGet?, aLookup]; rfl)
        (by simp [dispatchCamera, mkPerspective, fullCalib, getNum, getItem,
          dGet?, aLookup, asNum, Bind.bind, Except.bind, Pure.pure, Except.pure])⟩
    · exact ⟨_, hcomb _ "brown" (Camera.brown v (v / v) v v v v v v v)
        (by simp [getProjection, fullCalib, dGet?, aLookup]; rfl)
        (by simp [dispatchCamera, mkBrown, fullCalib, getNum, getItem,
          dGet?, aLookup, asNum, pyDiv, hv, Bind.bind, Except.bind,
          Pure.pure, Except.pure])⟩
    · exact ⟨_, hcomb _ "fisheye" (Camera.fisheye v v v)
        (by simp [getProjection, fullCalib, dGet?, aLookup]; rfl)
        (by simp [dispatchCamera, mkFisheye, fullCalib, getNum, getItem,
          dGet?, aLookup, asNum, Bind.bind, Except.bind, Pure.pure, Except.pure])⟩
    · exact ⟨_, hcomb _ "fisheye_opencv" (Camera.fisheye_opencv v (v / v) v v v v v v)
        (by simp [getProjection, fullCalib, dGet?, aLookup]; rfl)
        (by simp [dispatchCamera, mkFisheyeOpencv, fullCalib, getNum, getItem,
          dGet?, aLookup, asNum, pyDiv, hv, Bind.bind, Except.bind,
          Pure.pure, Except.pure])⟩
    · exact ⟨_, hcomb _ "fisheye62" (Camera.fisheye62 v (v / v) v v v v v v v v v v)
        (by simp [getProjection, fullCalib, dGet?, aLookup]; rfl)
        (by simp [dispatchCamera, mkFisheye62, fullCalib, getNum, getItem,
          dGet?, aLookup, asNum, pyDiv, hv, Bind.bind, Except.bind,
          Pure.pure, Except.pure])⟩
    · exact ⟨_, hcomb _ "fisheye624"
        (Camera.fisheye624 v (v / v) v v v v v v v v v v v v v v)
        (by simp [getProjection, fullCalib, dGet?, aLookup]; rfl)
        (by simp [dispatchCamera, mkFisheye624, fullCalib, getNum, getItem,
          dGet?, aLookup, asNum, pyDiv, hv, Bind.bind, Except.bind,
          Pure.pure, Except.pure])⟩
    · exact ⟨_, hcomb _ "radial" (Camera.radial v (v / v) v v v v)
        (by simp [getProjection, fullCalib, dGet?, aLookup]; rfl)
        (by simp [dispatchCamera, mkRadial, fullCalib, getNum, getItem,
          dGet?, aLookup, asNum, pyDiv, hv, Bind.bind, Except.bind,
          Pure.pure, Except.pure])⟩
    · exact ⟨_, hcomb _ "simple_radial" (Camera.simple_radial v (v / v) v v v)
        (by simp [getProjection, fullCalib, dGet?, aLookup]; rfl)
        (by simp [dispatchCamera, mkSimpleRadial, fullCalib, getNum, getItem,
          dGet?, aLookup, asNum, pyDiv, hv, Bind.bind, Except.bind,
          Pure.pure, Except.pure])⟩
    · exact ⟨_, hcomb _ "dual" (Camera.dual v v v v)
        (by simp [getProjection, fullCalib, dGet?, aLookup]; rfl)
        (by simp [dispatchCamera, mkDual, fullCalib, getNum, getItem,
          dGet?, aLookup, asNum, Bind.bind, Except.bind, Pure.pure, Except.pure])⟩
    · exact ⟨_, hcomb _ "spherical" Camera.spherical
        (by simp [getProjection, fullCalib, dGet?, aLookup]; rfl)
        (by simp [dispatchCamera, is_panorama]; rfl)⟩

/-- Witness for C5 combining the spec's scenario D (the unknown projection
type "fisheye_exotic" raises the fatal error) with a known-family success at
projection "perspective". -/
theorem camera_from_exif_metadata_spec_witness :
    camera_from_exif_metadata [] 0
        (fun _ _ => Except.ok [("projection_type", Val.str "fisheye_exotic")]) =
      Except.error ("ValueError: Unknown projection type: " ++ "fisheye_exotic") ∧
    ∃ c, camera_from_exif_metadata
        [("camera", Val.str "cam"), ("width", Val.num 640), ("height", Val.num 480)]
        0 (fun _ _ => Except.ok (fullCalib "perspective" 1)) = Except.ok c :=
  ⟨camera_from_exif_metadata_spec.1 [] 0
      (fun _ _ => Except.ok [("projection_type", Val.str "fisheye_exotic")])
      [("projection_type", Val.str "fisheye_exotic")] "fisheye_exotic"
      rfl rfl rfl,
   camera_from_exif_metadata_spec.2 "perspective" 1
      [("camera", Val.str "cam"), ("width", Val.num 640), ("height", Val.num 480)]
      "cam" 640 480 rfl one_ne_zero rfl rfl rfl⟩
